import Mathlib

/-!
Shallow embedding of the `ip_isr` orchestration code
(`python/lsst/ip/isr/proportionalLinearize.py` and
`python/lsst/ip/isr/isrTask.py`).

Pixel values are modelled as rationals; an image plane is a function from a
flat pixel index to a value.  An amplifier's bounding box is the list of flat
pixel indices of its region.  In-place mutation of the exposure is modelled by
explicit state passing: an operation that can raise returns the final state of
the exposure together with an `Option String` error (the Python exceptions
propagate, but the in-place mutations done before the raise survive, so the
state is returned even on error).
-/

/-- An amplifier, as used by `proportionalLinearize.py`: a name, a linearity
type string, a list of linearity coefficients and a bounding box (modelled as
the list of flat pixel indices of the amp's region of the exposure). -/
structure Amp where
  name : String
  linearityType : String
  linearityCoeffs : List ℚ
  bbox : List Nat
deriving DecidableEq

/-- A detector: an id and its amplifiers, in iteration order. -/
structure Detector where
  id : Nat
  amps : List Amp
deriving DecidableEq

/-- A masked image: image, mask and variance planes over flat pixel indices. -/
structure MaskedImage where
  image : Nat → ℚ
  mask : Nat → Nat
  variance : Nat → ℚ

/-- An exposure: a masked image together with its detector. -/
structure Exposure where
  detector : Detector
  maskedImage : MaskedImage

/-- The mask-plane bit for the SUSPECT plane.  The actual bit position is
assigned at run time by the afw framework; the model fixes one. -/
def suspectBit : Nat := 8

/-- Modelled from the spec: `FootprintSet(ampImage, Threshold(maxUncorr),
"SUSPECT")` calls the external `lsst.afw.detection` library, which is not part
of this repository.  Per the task docstring ("if maxUncorr > 0 then flag
pixels as SUSPECT where uncorrIm > maxUncorr") it ORs the SUSPECT bit into the
mask at every pixel of the amp region whose image value exceeds the
threshold. -/
def setSuspect (t : ℚ) (bbox : List Nat) (img : Nat → ℚ) (mask : Nat → Nat) :
    Nat → Nat :=
  fun i => if i ∈ bbox ∧ t < img i then mask i ||| suspectBit else mask i

/-- Numpy statement `ampArr *= 1.0 + squareCoeff*ampArr`: every pixel of the amp region is
replaced by `v * (1 + s * v)`; pixels outside the region are untouched. -/
def applySquare (s : ℚ) (bbox : List Nat) (img : Nat → ℚ) : Nat → ℚ :=
  fun i => if i ∈ bbox then img i * (1 + s * img i) else img i

namespace ProportionalLinearizeTask

/-- Method `ProportionalLinearizeTask.doCorrect`: inspect the first amplifier's
linearity type.  `detector[0]` on an empty detector raises an IndexError. -/
def doCorrect (detector : Detector) : Except String Bool :=
  match detector.amps.head? with
  | none => .error "IndexError: detector has no amplifiers"
  | some amp =>
    if amp.linearityType = "NONE" then .ok false
    else if amp.linearityType = "PROPORTIONAL" then
      if amp.linearityCoeffs.length < 3 then
        .error "Need 3 linearity coefficients"
      else .ok true
    else
      .error "Unsupported linearity type"

/-- The body of the per-amplifier loop of `ProportionalLinearizeTask.run`:
`squareCoeff, coeff1, maxUncorr = amp.getLinearityCoeffs()[0:3]` (a ValueError
if fewer than 3 coefficients; extra coefficients are ignored), raise if
`coeff1 != 0`, skip if `maxUncorr <= 0 and squareCoeff == 0`, otherwise flag
SUSPECT pixels when `maxUncorr > 0` and apply the square correction when
`squareCoeff != 0`.  Returns the new masked image and the `didCorrect`
contribution. -/
def runAmp (mi : MaskedImage) (amp : Amp) : Except String (MaskedImage × Bool) :=
  if amp.linearityCoeffs.length < 3 then
    .error "ValueError: not enough values to unpack"
  else if amp.linearityCoeffs.getD 1 0 ≠ 0 then
    .error "coeff 1 must be 0 for PROPORTIONAL non-linearity correction"
  else if amp.linearityCoeffs.getD 2 0 ≤ 0 ∧ amp.linearityCoeffs.getD 0 0 = 0 then
    .ok (mi, false)
  else
    .ok ({ image :=
             if amp.linearityCoeffs.getD 0 0 ≠ 0 then
               applySquare (amp.linearityCoeffs.getD 0 0) amp.bbox mi.image
             else mi.image,
           mask :=
             if 0 < amp.linearityCoeffs.getD 2 0 then
               setSuspect (amp.linearityCoeffs.getD 2 0) amp.bbox mi.image mi.mask
             else mi.mask,
           variance := mi.variance }, true)

/-- The `for amp in detector` loop of `run`: thread the masked image through
`runAmp` for each amplifier.  On a raise the loop stops; mutations already made
by earlier iterations survive, so the state at the raise is returned together
with the error.  The `Bool` is the accumulated `didCorrect` flag. -/
def runAmps (mi : MaskedImage) : List Amp → MaskedImage × Bool × Option String
  | [] => (mi, false, none)
  | amp :: rest =>
    match runAmp mi amp with
    | .error msg => (mi, false, some msg)
    | .ok (mi1, d) =>
      ((runAmps mi1 rest).1, d || (runAmps mi1 rest).2.1, (runAmps mi1 rest).2.2)

/-- Method `ProportionalLinearizeTask.run`: return unchanged when `doCorrect` is
false, otherwise run the per-amplifier loop.  The first component is the state
of the exposure when the call returns or raises; the second is the raised
error, if any.  (`didCorrect` only controls a log line and is dropped.) -/
def run (e : Exposure) : Exposure × Option String :=
  match doCorrect e.detector with
  | .error msg => (e, some msg)
  | .ok false => (e, none)
  | .ok true =>
    ({ e with maskedImage := (runAmps e.maskedImage e.detector.amps).1 },
     (runAmps e.maskedImage e.detector.amps).2.2)

end ProportionalLinearizeTask

/-- Two amplifiers occupy disjoint regions of the exposure. -/
def ampDisjoint (a b : Amp) : Prop := ∀ i ∈ a.bbox, i ∉ b.bbox

instance (a b : Amp) : Decidable (ampDisjoint a b) := by
  unfold ampDisjoint; infer_instance

/-- An amplifier with at least 3 linearity coefficients `(s, 0, t)` where
`s` is non-zero and `t` is positive. -/
def goodAmp (a : Amp) : Prop :=
  3 ≤ a.linearityCoeffs.length ∧ a.linearityCoeffs.getD 1 0 = 0 ∧
  a.linearityCoeffs.getD 0 0 ≠ 0 ∧ 0 < a.linearityCoeffs.getD 2 0

instance (a : Amp) : Decidable (goodAmp a) := by
  unfold goodAmp; infer_instance

/-- An amplifier of linearity type PROPORTIONAL whose first three
coefficients are all zero. -/
def zeroCoeffAmp (a : Amp) : Prop :=
  a.linearityType = "PROPORTIONAL" ∧ 3 ≤ a.linearityCoeffs.length ∧
  a.linearityCoeffs.getD 0 0 = 0 ∧ a.linearityCoeffs.getD 1 0 = 0 ∧
  a.linearityCoeffs.getD 2 0 = 0

instance (a : Amp) : Decidable (zeroCoeffAmp a) := by
  unfold zeroCoeffAmp; infer_instance

namespace IsrTask

/-- Kinds of cameraGeom object that reach the amplifier-only helpers of
`IsrTask`: either a `cameraGeom.Amp` or a whole-CCD object. -/
inductive GeomObject where
  | amp
  | ccd
deriving DecidableEq

/-- Method `IsrTask.checkIsAmp`: `isinstance(detector, cameraGeom.Amp)`. -/
def checkIsAmp (detector : GeomObject) : Bool :=
  match detector with
  | .amp => true
  | .ccd => false

/-- Error message raised by the amplifier-only helpers of `IsrTask`. -/
def ampOnlyError : String := "This method must be executed on an amp."

/-- Method `IsrTask.saturationDetection` (isrTask.py lines 230-242): raise
unless the detector is an amp, else run the external masking routine.
Modelled from the spec: `isr.makeThresholdMask` belongs to the external
numeric `isr` library and is abstracted as an arbitrary transform of the
exposure; the guard before it is from the source. -/
def saturationDetection (makeThresholdMask : Exposure → Exposure)
    (exposure : Exposure) (detector : GeomObject) : Exposure × Option String :=
  if ¬ checkIsAmp detector then (exposure, some ampOnlyError)
  else (makeThresholdMask exposure, none)

/-- Method `IsrTask.saturationCorrection` (isrTask.py lines 207-228): raise
unless the detector is an amp, else run the external correction routine.
Modelled from the spec: `isr.saturationCorrection` is external and abstracted
as an arbitrary transform of the exposure. -/
def saturationCorrection (saturationCorrect : Exposure → Exposure)
    (exposure : Exposure) (detector : GeomObject) : Exposure × Option String :=
  if ¬ checkIsAmp detector then (exposure, some ampOnlyError)
  else (saturationCorrect exposure, none)

/-- Method `IsrTask.overscanCorrection` (isrTask.py lines 305-313): raise
unless the detector is an amp, else run the external overscan fit.  Modelled
from the spec: `isr.overscanCorrection` is external and abstracted as an
arbitrary transform of the exposure. -/
def overscanCorrection (overscanCorrect : Exposure → Exposure)
    (exposure : Exposure) (detector : GeomObject) : Exposure × Option String :=
  if ¬ checkIsAmp detector then (exposure, some ampOnlyError)
  else (overscanCorrect exposure, none)

/-- Outcome of `IsrTask.maskAndInterpNan`: the value stored under the NUMNANS
metadata key, whether a RuntimeError was raised, and whether the
interpolation block was executed. -/
structure NanOutcome where
  numNans : Nat
  raised : Bool
  interpolated : Bool
deriving DecidableEq

/-- Method `IsrTask.maskAndInterpNan` (isrTask.py lines 280-303).  Modelled
from the spec: the NaN count comes from `UnmaskedNanCounterF`, which lives in
the repository's compiled `isrLib` and is not among the provided sources, so
the count is a parameter.  The control flow is from the source: the NUMNANS
metadata key is set first, then `raise RuntimeError` whenever the count is
non-zero, and only after that comes the `if nnans > 0` interpolation block,
which therefore runs only when no error was raised. -/
def maskAndInterpNan (nnans : Nat) : NanOutcome :=
  if nnans ≠ 0 then { numNans := nnans, raised := true, interpolated := false }
  else if 0 < nnans then { numNans := nnans, raised := false, interpolated := true }
  else { numNans := nnans, raised := false, interpolated := false }

/-- Resolution of the global names a Python method body reads: each must be
bound in the enclosing scope (parameters or module-level names), otherwise
the call raises a NameError. -/
def pythonLookup (scope reads : List String) : Except String Unit :=
  if reads.all (fun n => scope.contains n) then .ok () else .error "NameError"

/-- Names visible inside the body of `IsrTask.biasCorrection` (isrTask.py
lines 180-182): its parameters plus the module-level imports and classes of
isrTask.py.  No name `sensorRef` or `ccdExp` is among them. -/
def biasCorrectionScope : List String :=
  ["self", "exposure", "dataRef",
   "afwImage", "measAlg", "cameraGeom", "pexConfig", "pipeBase", "isr",
   "UnmaskedNanCounterF", "AssembleCcdTask", "IsrTaskConfig", "IsrTask"]

/-- Global names the body of `IsrTask.biasCorrection` reads: it evaluates
`sensorRef.get("bias")` and `isr.biasCorrection(ccdExp.getMaskedImage(), ...)`
(the local `biasMI` is assigned before use and so is not listed). -/
def biasCorrectionReads : List String := ["sensorRef", "isr", "ccdExp"]

/-- Names visible inside the body of `IsrTask.updateVariance` (isrTask.py
lines 191-195): its parameters plus the module-level names of isrTask.py. -/
def updateVarianceScope : List String :=
  ["self", "exposure", "ccd",
   "afwImage", "measAlg", "cameraGeom", "pexConfig", "pipeBase", "isr",
   "UnmaskedNanCounterF", "AssembleCcdTask", "IsrTaskConfig", "IsrTask"]

/-- Names the body of `IsrTask.updateVariance` reads: it evaluates
`isr.updateVariance(ccdExp.getMaskedImage(), ccd.getElectronicParams()...)`. -/
def updateVarianceReads : List String := ["isr", "ccdExp", "ccd"]

end IsrTask

/-- Concrete amplifier with a proportional model `s = 1`, `t = 40` on
pixels 0 and 1. -/
def ampA : Amp :=
  { name := "A", linearityType := "PROPORTIONAL",
    linearityCoeffs := [1, 0, 40], bbox := [0, 1] }

/-- Concrete amplifier with a proportional model `s = 2`, `t = 35` on
pixels 2 and 3. -/
def ampB : Amp :=
  { name := "B", linearityType := "PROPORTIONAL",
    linearityCoeffs := [2, 0, 35], bbox := [2, 3] }

/-- Concrete amplifier of linearity type NONE. -/
def ampNone : Amp :=
  { name := "N", linearityType := "NONE", linearityCoeffs := [], bbox := [0] }

/-- Concrete amplifier whose second linearity coefficient is non-zero. -/
def ampBadCoeff1 : Amp :=
  { name := "X", linearityType := "PROPORTIONAL",
    linearityCoeffs := [1, 5, 0], bbox := [2, 3] }

/-- Concrete PROPORTIONAL amplifier whose first three coefficients are 0. -/
def ampZero : Amp :=
  { name := "Z", linearityType := "PROPORTIONAL",
    linearityCoeffs := [0, 0, 0], bbox := [0, 1] }

/-- Concrete amplifier with `squareCoeff = 0` and a negative `maxUncorr`. -/
def ampNegThreshold : Amp :=
  { name := "G", linearityType := "PROPORTIONAL",
    linearityCoeffs := [0, 0, -5], bbox := [0, 1] }

/-- Concrete masked image: pixel 1 holds 4, pixel 3 holds 60 (above the 35
threshold of `ampB`), all other pixels 0; mask clear, variance 1. -/
def miAB : MaskedImage :=
  { image := fun i => if i = 1 then 4 else if i = 3 then 60 else 0,
    mask := fun _ => 0, variance := fun _ => 1 }

/-- Concrete exposure over `ampA` and `ampB`. -/
def expAB : Exposure :=
  { detector := { id := 7, amps := [ampA, ampB] }, maskedImage := miAB }

/-- Concrete exposure whose only amplifier has linearity type NONE. -/
def expNone : Exposure :=
  { detector := { id := 5, amps := [ampNone] }, maskedImage := miAB }

/-- Concrete exposure whose second amplifier has a non-zero second
coefficient. -/
def expBadCoeff1 : Exposure :=
  { detector := { id := 3, amps := [ampA, ampBadCoeff1] }, maskedImage := miAB }

/-- Concrete exposure whose only amplifier has all-zero coefficients. -/
def expZero : Exposure :=
  { detector := { id := 4, amps := [ampZero] }, maskedImage := miAB }

theorem applySquare_mem (s : ℚ) (bbox : List Nat) (img : Nat → ℚ) {i : Nat}
    (h : i ∈ bbox) : applySquare s bbox img i = img i * (1 + s * img i) := by
  simp [applySquare, h]

theorem applySquare_notMem (s : ℚ) (bbox : List Nat) (img : Nat → ℚ) {i : Nat}
    (h : i ∉ bbox) : applySquare s bbox img i = img i := by
  simp [applySquare, h]

theorem setSuspect_mem (t : ℚ) (bbox : List Nat) (img : Nat → ℚ)
    (mask : Nat → Nat) {i : Nat} (h : i ∈ bbox) :
    setSuspect t bbox img mask i =
      (if t < img i then mask i ||| suspectBit else mask i) := by
  by_cases h2 : t < img i
  · simp [setSuspect, h, h2]
  · simp [setSuspect, h, h2]

theorem setSuspect_notMem (t : ℚ) (bbox : List Nat) (img : Nat → ℚ)
    (mask : Nat → Nat) {i : Nat} (h : i ∉ bbox) :
    setSuspect t bbox img mask i = mask i := by
  simp [setSuspect, h]

namespace ProportionalLinearizeTask

theorem runAmp_good (mi : MaskedImage) (a : Amp) (h : goodAmp a) :
    runAmp mi a =
      .ok ({ image := applySquare (a.linearityCoeffs.getD 0 0) a.bbox mi.image,
             mask := setSuspect (a.linearityCoeffs.getD 2 0) a.bbox mi.image mi.mask,
             variance := mi.variance }, true) := by
  obtain ⟨hlen, h1, h0, h2⟩ := h
  unfold runAmp
  rw [if_neg (by omega), if_neg (by simpa using h1),
    if_neg (by rintro ⟨hle, -⟩; exact absurd h2 (not_lt.mpr hle)),
    if_pos h0, if_pos h2]

theorem runAmp_zero (mi : MaskedImage) (a : Amp) (h : zeroCoeffAmp a) :
    runAmp mi a = .ok (mi, false) := by
  obtain ⟨-, hlen, h0, h1, h2⟩ := h
  unfold runAmp
  rw [if_neg (by omega), if_neg (by simpa using h1), if_pos ⟨le_of_eq h2, h0⟩]

theorem runAmp_ok_coeff1 {mi : MaskedImage} {a : Amp} {x : MaskedImage × Bool}
    (h : runAmp mi a = .ok x) : a.linearityCoeffs.getD 1 0 = 0 := by
  unfold runAmp at h
  by_cases h3 : a.linearityCoeffs.length < 3
  · rw [if_pos h3] at h; exact absurd h (by simp)
  · rw [if_neg h3] at h
    by_cases h1 : a.linearityCoeffs.getD 1 0 ≠ 0
    · rw [if_pos h1] at h; exact absurd h (by simp)
    · exact not_not.mp h1

theorem runAmps_raises (amps : List Amp) :
    ∀ mi : MaskedImage, (∃ a ∈ amps, a.linearityCoeffs.getD 1 0 ≠ 0) →
    ((runAmps mi amps).2.2).isSome := by
  induction amps with
  | nil => rintro mi ⟨a, ha, -⟩; exact absurd ha (List.not_mem_nil a)
  | cons b rest ih =>
    rintro mi ⟨a, ha, hc⟩
    cases hRA : runAmp mi b with
    | error msg => simp [runAmps, hRA]
    | ok x =>
      rcases List.mem_cons.mp ha with rfl | hrest
      · exact absurd (runAmp_ok_coeff1 hRA) hc
      · simpa [runAmps, hRA] using ih x.1 ⟨a, hrest, hc⟩

theorem runAmps_good (amps : List Amp) :
    ∀ mi : MaskedImage, List.Pairwise ampDisjoint amps →
    (∀ a ∈ amps, goodAmp a) →
    (runAmps mi amps).2.2 = none ∧
    (runAmps mi amps).1.variance = mi.variance ∧
    (∀ i, (∀ a ∈ amps, i ∉ a.bbox) →
      (runAmps mi amps).1.image i = mi.image i ∧
      (runAmps mi amps).1.mask i = mi.mask i) ∧
    (∀ a ∈ amps, ∀ i ∈ a.bbox,
      (runAmps mi amps).1.image i =
        mi.image i * (1 + a.linearityCoeffs.getD 0 0 * mi.image i) ∧
      (runAmps mi amps).1.mask i =
        (if a.linearityCoeffs.getD 2 0 < mi.image i then mi.mask i ||| suspectBit
         else mi.mask i)) := by
  induction amps with
  | nil =>
    intro mi _ _
    refine ⟨rfl, rfl, fun i _ => ⟨rfl, rfl⟩, fun a ha => absurd ha (List.not_mem_nil a)⟩
  | cons b rest ih =>
    intro mi hpw hgood
    obtain ⟨hd, hrest⟩ := List.pairwise_cons.mp hpw
    have hgb : goodAmp b := hgood b (List.mem_cons_self b rest)
    have hgr : ∀ a ∈ rest, goodAmp a := fun a ha => hgood a (List.mem_cons_of_mem b ha)
    rw [runAmps, runAmp_good mi b hgb]
    set mi1 : MaskedImage :=
      { image := applySquare (b.linearityCoeffs.getD 0 0) b.bbox mi.image,
        mask := setSuspect (b.linearityCoeffs.getD 2 0) b.bbox mi.image mi.mask,
        variance := mi.variance } with hmi1
    obtain ⟨ihNone, ihVar, ihFrame, ihAmp⟩ := ih mi1 hrest hgr
    refine ⟨ihNone, ihVar, ?_, ?_⟩
    · intro i hi
      have hib : i ∉ b.bbox := hi b (List.mem_cons_self b rest)
      have hir : ∀ a ∈ rest, i ∉ a.bbox := fun a ha => hi a (List.mem_cons_of_mem b ha)
      obtain ⟨hImg, hMask⟩ := ihFrame i hir
      refine ⟨?_, ?_⟩
      · rw [hImg, hmi1]; exact applySquare_notMem _ _ _ hib
      · rw [hMask, hmi1]; exact setSuspect_notMem _ _ _ _ hib
    · intro a ha i hi
      rcases List.mem_cons.mp ha with rfl | har
      · have hir : ∀ c ∈ rest, i ∉ c.bbox := fun c hc => hd c hc i hi
        obtain ⟨hImg, hMask⟩ := ihFrame i hir
        refine ⟨?_, ?_⟩
        · rw [hImg, hmi1]; exact applySquare_mem _ _ _ hi
        · rw [hMask, hmi1]; exact setSuspect_mem _ _ _ _ hi
      · have hib : i ∉ b.bbox := fun hib => hd a har i hib hi
        have hImg1 : mi1.image i = mi.image i := applySquare_notMem _ _ _ hib
        have hMask1 : mi1.mask i = mi.mask i := setSuspect_notMem _ _ _ _ hib
        obtain ⟨hImg, hMask⟩ := ihAmp a har i hi
        exact ⟨by rw [hImg, hImg1], by rw [hMask, hImg1, hMask1]⟩

theorem runAmps_zero (amps : List Amp) :
    ∀ mi : MaskedImage, (∀ a ∈ amps, zeroCoeffAmp a) →
    runAmps mi amps = (mi, false, none) := by
  induction amps with
  | nil => intro mi _; rfl
  | cons b rest ih =>
    intro mi h
    rw [runAmps, runAmp_zero mi b (h b (List.mem_cons_self b rest))]
    simp [ih mi (fun a ha => h a (List.mem_cons_of_mem b ha))]

end ProportionalLinearizeTask


namespace ProportionalLinearizeTask

theorem doCorrect_proportional {det : Detector} {a : Amp} {rest : List Amp}
    (h : det.amps = a :: rest) (ht : a.linearityType = "PROPORTIONAL")
    (hlen : 3 ≤ a.linearityCoeffs.length) :
    doCorrect det = .ok true := by
  unfold doCorrect
  rw [h]
  simp only [List.head?_cons]
  rw [if_neg (by rw [ht]; decide), if_pos ht, if_neg (by omega)]

theorem runAmp_coeff1_error {mi : MaskedImage} {a : Amp}
    (hlen : 3 ≤ a.linearityCoeffs.length)
    (hc : a.linearityCoeffs.getD 1 0 ≠ 0) :
    runAmp mi a =
      .error "coeff 1 must be 0 for PROPORTIONAL non-linearity correction" := by
  unfold runAmp
  rw [if_neg (by omega), if_pos hc]

theorem run_eq_of_true {e : Exposure} (h : doCorrect e.detector = .ok true) :
    run e =
      ({ e with maskedImage := (runAmps e.maskedImage e.detector.amps).1 },
       (runAmps e.maskedImage e.detector.amps).2.2) := by
  unfold run
  rw [h]

theorem run_eq_of_false {e : Exposure} (h : doCorrect e.detector = .ok false) :
    run e = (e, none) := by
  unfold run
  rw [h]

theorem run_eq_of_error {e : Exposure} {msg : String}
    (h : doCorrect e.detector = .error msg) :
    run e = (e, some msg) := by
  unfold run
  rw [h]

theorem run_zeroCoeff_noop (e : Exposure)
    (hne : e.detector.amps ≠ [])
    (hz : ∀ a ∈ e.detector.amps, zeroCoeffAmp a) :
    run e = (e, none) := by
  obtain ⟨a0, rest, hamps⟩ := List.exists_cons_of_ne_nil hne
  have hz0 : zeroCoeffAmp a0 :=
    hz a0 (by rw [hamps]; exact List.mem_cons_self a0 rest)
  rw [run_eq_of_true (doCorrect_proportional hamps hz0.1 hz0.2.1),
    runAmps_zero e.detector.amps e.maskedImage hz]

end ProportionalLinearizeTask

/-- C1: for a detector whose amplifiers (pairwise disjoint, at least one) all
have linearity type PROPORTIONAL with coefficients `(s, 0, t)`, `s` non-zero
and `t` positive, and an exposure whose mask starts clear,
`ProportionalLinearizeTask.run` succeeds and, on each amplifier region,
replaces each pixel value `v` by `v * (1 + s * v)`, flags every pixel whose
original value exceeds `t` as SUSPECT, and leaves pixels with original value
at most `t` unflagged. -/
theorem run_proportional_spec (e : Exposure)
    (hne : e.detector.amps ≠ [])
    (hpw : List.Pairwise ampDisjoint e.detector.amps)
    (htype : ∀ a ∈ e.detector.amps, a.linearityType = "PROPORTIONAL")
    (hgood : ∀ a ∈ e.detector.amps, goodAmp a)
    (hmask : ∀ i, e.maskedImage.mask i = 0) :
    (ProportionalLinearizeTask.run e).2 = none ∧
    ∀ a ∈ e.detector.amps, ∀ i ∈ a.bbox,
      (ProportionalLinearizeTask.run e).1.maskedImage.image i =
        e.maskedImage.image i *
          (1 + a.linearityCoeffs.getD 0 0 * e.maskedImage.image i) ∧
      (ProportionalLinearizeTask.run e).1.maskedImage.mask i =
        (if a.linearityCoeffs.getD 2 0 < e.maskedImage.image i then suspectBit
         else 0) := by
  obtain ⟨a0, rest, hamps⟩ := List.exists_cons_of_ne_nil hne
  have hmem : a0 ∈ e.detector.amps := by
    rw [hamps]; exact List.mem_cons_self a0 rest
  have hDC := ProportionalLinearizeTask.doCorrect_proportional
    hamps (htype a0 hmem) (hgood a0 hmem).1
  rw [ProportionalLinearizeTask.run_eq_of_true hDC]
  obtain ⟨hNone, -, -, hAmp⟩ :=
    ProportionalLinearizeTask.runAmps_good e.detector.amps e.maskedImage hpw hgood
  refine ⟨hNone, ?_⟩
  intro a ha i hi
  obtain ⟨hImg, hMask⟩ := hAmp a ha i hi
  refine ⟨hImg, ?_⟩
  show (ProportionalLinearizeTask.runAmps e.maskedImage e.detector.amps).1.mask i = _
  rw [hMask, hmask i]
  by_cases hc : a.linearityCoeffs.getD 2 0 < e.maskedImage.image i
  · rw [if_pos hc, if_pos hc, Nat.zero_or]
  · rw [if_neg hc, if_neg hc]

/-- Concrete instantiation of `run_proportional_spec` at the two-amplifier
exposure `expAB`. -/
theorem run_proportional_spec_witness :
    (ProportionalLinearizeTask.run expAB).2 = none ∧
    ∀ a ∈ expAB.detector.amps, ∀ i ∈ a.bbox,
      (ProportionalLinearizeTask.run expAB).1.maskedImage.image i =
        expAB.maskedImage.image i *
          (1 + a.linearityCoeffs.getD 0 0 * expAB.maskedImage.image i) ∧
      (ProportionalLinearizeTask.run expAB).1.maskedImage.mask i =
        (if a.linearityCoeffs.getD 2 0 < expAB.maskedImage.image i then suspectBit
         else 0) :=
  run_proportional_spec expAB (by decide) (by decide) (by decide) (by decide)
    (fun _ => rfl)

/-- C2: `IsrTask.maskAndInterpNan` records the unmasked-NaN count under the
NUMNANS metadata key, raises exactly when that count is non-zero, and the
interpolation block guarded by the same count is never executed (the raise
sits unconditionally inside the non-zero branch). -/
theorem maskAndInterpNan_spec (nnans : Nat) :
    (IsrTask.maskAndInterpNan nnans).numNans = nnans ∧
    ((IsrTask.maskAndInterpNan nnans).raised = true ↔ nnans ≠ 0) ∧
    (IsrTask.maskAndInterpNan nnans).interpolated = false := by
  by_cases h : nnans = 0
  · subst h; simp [IsrTask.maskAndInterpNan]
  · simp [IsrTask.maskAndInterpNan, h]

/-- C3: contrary to the claim, `IsrTask.biasCorrection` and
`IsrTask.updateVariance` never reach the bias subtraction or the variance
update: their bodies read the names `sensorRef` and `ccdExp`, which are not
bound in their scopes (the parameters are named `dataRef` and `exposure`), so
every call raises a NameError. -/
theorem biasCorrection_updateVariance_nameError :
    IsrTask.pythonLookup IsrTask.biasCorrectionScope IsrTask.biasCorrectionReads =
      .error "NameError" ∧
    IsrTask.pythonLookup IsrTask.updateVarianceScope IsrTask.updateVarianceReads =
      .error "NameError" :=
  ⟨rfl, rfl⟩

/-- C4: `ProportionalLinearizeTask.doCorrect` decides from the first
amplifier only: false for linearity type NONE, true for PROPORTIONAL with at
least 3 coefficients, an error for PROPORTIONAL with fewer than 3, an error
for any other type; and its result does not depend on the remaining
amplifiers. -/
theorem doCorrect_spec (idn : Nat) (a : Amp) (rest rest2 : List Amp) :
    (a.linearityType = "NONE" →
      ProportionalLinearizeTask.doCorrect ⟨idn, a :: rest⟩ = .ok false) ∧
    (a.linearityType = "PROPORTIONAL" → 3 ≤ a.linearityCoeffs.length →
      ProportionalLinearizeTask.doCorrect ⟨idn, a :: rest⟩ = .ok true) ∧
    (a.linearityType = "PROPORTIONAL" → a.linearityCoeffs.length < 3 →
      ProportionalLinearizeTask.doCorrect ⟨idn, a :: rest⟩ =
        .error "Need 3 linearity coefficients") ∧
    (a.linearityType ≠ "NONE" → a.linearityType ≠ "PROPORTIONAL" →
      ProportionalLinearizeTask.doCorrect ⟨idn, a :: rest⟩ =
        .error "Unsupported linearity type") ∧
    ProportionalLinearizeTask.doCorrect ⟨idn, a :: rest⟩ =
      ProportionalLinearizeTask.doCorrect ⟨idn, a :: rest2⟩ := by
  refine ⟨?_, ?_, ?_, ?_, rfl⟩
  · intro h
    unfold ProportionalLinearizeTask.doCorrect
    simp only [List.head?_cons]
    rw [if_pos h]
  · intro ht hlen
    exact ProportionalLinearizeTask.doCorrect_proportional rfl ht hlen
  · intro ht hlen
    unfold ProportionalLinearizeTask.doCorrect
    simp only [List.head?_cons]
    rw [if_neg (by rw [ht]; decide), if_pos ht, if_pos hlen]
  · intro h1 h2
    unfold ProportionalLinearizeTask.doCorrect
    simp only [List.head?_cons]
    rw [if_neg h1, if_neg h2]

/-- Concrete instantiation of `doCorrect_spec`: a NONE first amplifier gives
"no correction". -/
theorem doCorrect_spec_witness :
    ProportionalLinearizeTask.doCorrect ⟨0, [ampNone]⟩ = .ok false :=
  (doCorrect_spec 0 ampNone [] []).1 rfl

/-- C5: when correction is wanted (`doCorrect` returns true) and some
amplifier has a non-zero second linearity coefficient,
`ProportionalLinearizeTask.run` raises an error. -/
theorem run_raises_nonzero_coeff1 (e : Exposure) (a : Amp)
    (hw : ProportionalLinearizeTask.doCorrect e.detector = .ok true)
    (ha : a ∈ e.detector.amps)
    (hc : a.linearityCoeffs.getD 1 0 ≠ 0) :
    ((ProportionalLinearizeTask.run e).2).isSome := by
  rw [ProportionalLinearizeTask.run_eq_of_true hw]
  exact ProportionalLinearizeTask.runAmps_raises e.detector.amps e.maskedImage
    ⟨a, ha, hc⟩

/-- Concrete instantiation of `run_raises_nonzero_coeff1` at `expBadCoeff1`,
whose second amplifier has second coefficient 5. -/
theorem run_raises_nonzero_coeff1_witness :
    ((ProportionalLinearizeTask.run expBadCoeff1).2).isSome :=
  run_raises_nonzero_coeff1 expBadCoeff1 ampBadCoeff1 rfl (by decide) (by decide)

/-- C6: when every amplifier of the detector has linearity type NONE,
`ProportionalLinearizeTask.run` leaves the exposure (image, mask and variance
planes) unchanged. -/
theorem run_none_unchanged (e : Exposure)
    (h : ∀ a ∈ e.detector.amps, a.linearityType = "NONE") :
    (ProportionalLinearizeTask.run e).1 = e := by
  cases hamps : e.detector.amps with
  | nil =>
    have hDC : ProportionalLinearizeTask.doCorrect e.detector =
        .error "IndexError: detector has no amplifiers" := by
      unfold ProportionalLinearizeTask.doCorrect
      rw [hamps]
      rfl
    rw [ProportionalLinearizeTask.run_eq_of_error hDC]
  | cons a rest =>
    have ht : a.linearityType = "NONE" :=
      h a (by rw [hamps]; exact List.mem_cons_self a rest)
    have hDC : ProportionalLinearizeTask.doCorrect e.detector = .ok false := by
      unfold ProportionalLinearizeTask.doCorrect
      rw [hamps]
      simp only [List.head?_cons]
      rw [if_pos ht]
    rw [ProportionalLinearizeTask.run_eq_of_false hDC]

/-- Concrete instantiation of `run_none_unchanged` at `expNone`. -/
theorem run_none_unchanged_witness :
    (ProportionalLinearizeTask.run expNone).1 = expNone :=
  run_none_unchanged expNone (by decide)

/-- C7: the amplifier-only helpers of `IsrTask` (`saturationDetection`,
`saturationCorrection`, `overscanCorrection`) raise the reported error and
leave the exposure untouched when given a non-amplifier object, and proceed
without that error on an amplifier — whatever the external numeric routine
does. -/
theorem ampOnly_helpers_guard (f g k : Exposure → Exposure) (e : Exposure)
    (d : IsrTask.GeomObject) (hd : d ≠ IsrTask.GeomObject.amp) :
    (IsrTask.saturationDetection f e d = (e, some IsrTask.ampOnlyError) ∧
     IsrTask.saturationCorrection g e d = (e, some IsrTask.ampOnlyError) ∧
     IsrTask.overscanCorrection k e d = (e, some IsrTask.ampOnlyError)) ∧
    ((IsrTask.saturationDetection f e IsrTask.GeomObject.amp).2 = none ∧
     (IsrTask.saturationCorrection g e IsrTask.GeomObject.amp).2 = none ∧
     (IsrTask.overscanCorrection k e IsrTask.GeomObject.amp).2 = none) := by
  cases d with
  | amp => exact absurd rfl hd
  | ccd => exact ⟨⟨rfl, rfl, rfl⟩, rfl, rfl, rfl⟩

/-- Concrete instantiation of `ampOnly_helpers_guard` with identity external
routines on a CCD-granularity object. -/
theorem ampOnly_helpers_guard_witness :
    (IsrTask.saturationDetection id expAB IsrTask.GeomObject.ccd =
       (expAB, some IsrTask.ampOnlyError) ∧
     IsrTask.saturationCorrection id expAB IsrTask.GeomObject.ccd =
       (expAB, some IsrTask.ampOnlyError) ∧
     IsrTask.overscanCorrection id expAB IsrTask.GeomObject.ccd =
       (expAB, some IsrTask.ampOnlyError)) ∧
    ((IsrTask.saturationDetection id expAB IsrTask.GeomObject.amp).2 = none ∧
     (IsrTask.saturationCorrection id expAB IsrTask.GeomObject.amp).2 = none ∧
     (IsrTask.overscanCorrection id expAB IsrTask.GeomObject.amp).2 = none) :=
  ampOnly_helpers_guard id id id expAB IsrTask.GeomObject.ccd (by decide)

/-- C8: with every amplifier PROPORTIONAL and `squareCoeff`, `coeff1` and
`maxUncorr` all zero, a second application of
`ProportionalLinearizeTask.run` is a no-op: it returns the exposure produced
by the first application unchanged (and raises nothing). -/
theorem run_second_application_noop (e : Exposure)
    (hne : e.detector.amps ≠ [])
    (hz : ∀ a ∈ e.detector.amps, zeroCoeffAmp a) :
    ProportionalLinearizeTask.run ((ProportionalLinearizeTask.run e).1) =
      ((ProportionalLinearizeTask.run e).1, none) := by
  have h1 := ProportionalLinearizeTask.run_zeroCoeff_noop e hne hz
  rw [h1]
  exact h1

/-- Concrete instantiation of `run_second_application_noop` at `expZero`. -/
theorem run_second_application_noop_witness :
    ProportionalLinearizeTask.run ((ProportionalLinearizeTask.run expZero).1) =
      ((ProportionalLinearizeTask.run expZero).1, none) :=
  run_second_application_noop expZero (by decide) (by decide)

/-- C9: an amplifier with `squareCoeff = 0` and a strictly negative
`maxUncorr` is skipped entirely by the loop body of
`ProportionalLinearizeTask.run`: no pixel is modified and no SUSPECT flag is
set, even though the threshold coefficient is non-zero (the skip condition
tests `maxUncorr <= 0`, not equality with zero). -/
theorem runAmp_skips_negative_threshold (mi : MaskedImage) (a : Amp)
    (hlen : 3 ≤ a.linearityCoeffs.length)
    (h1 : a.linearityCoeffs.getD 1 0 = 0)
    (h0 : a.linearityCoeffs.getD 0 0 = 0)
    (h2 : a.linearityCoeffs.getD 2 0 < 0) :
    ProportionalLinearizeTask.runAmp mi a = .ok (mi, false) ∧
    a.linearityCoeffs.getD 2 0 ≠ 0 := by
  refine ⟨?_, ne_of_lt h2⟩
  unfold ProportionalLinearizeTask.runAmp
  rw [if_neg (by omega), if_neg (by simpa using h1), if_pos ⟨le_of_lt h2, h0⟩]

/-- Concrete instantiation of `runAmp_skips_negative_threshold` at an
amplifier with coefficients `(0, 0, -5)`. -/
theorem runAmp_skips_negative_threshold_witness :
    ProportionalLinearizeTask.runAmp miAB ampNegThreshold = .ok (miAB, false) ∧
    ampNegThreshold.linearityCoeffs.getD 2 0 ≠ 0 :=
  runAmp_skips_negative_threshold miAB ampNegThreshold (by decide) (by decide)
    (by decide) (by decide)

/-- C10: when `ProportionalLinearizeTask.run` raises because the second
amplifier has a non-zero second coefficient, the correction already applied
in place to the first amplifier survives: the exposure is observably
different from its pre-call state, so the error is not atomic. -/
theorem run_error_not_atomic (idn : Nat) (a1 a2 : Amp) (mi : MaskedImage)
    (i : Nat)
    (ht1 : a1.linearityType = "PROPORTIONAL")
    (hg1 : goodAmp a1)
    (hlen2 : 3 ≤ a2.linearityCoeffs.length)
    (hc2 : a2.linearityCoeffs.getD 1 0 ≠ 0)
    (hi : i ∈ a1.bbox)
    (hv : mi.image i ≠ 0) :
    ((ProportionalLinearizeTask.run ⟨⟨idn, [a1, a2]⟩, mi⟩).2).isSome ∧
    (ProportionalLinearizeTask.run ⟨⟨idn, [a1, a2]⟩, mi⟩).1.maskedImage.image i =
      mi.image i * (1 + a1.linearityCoeffs.getD 0 0 * mi.image i) ∧
    (ProportionalLinearizeTask.run ⟨⟨idn, [a1, a2]⟩, mi⟩).1.maskedImage.image i ≠
      mi.image i := by
  have hDC : ProportionalLinearizeTask.doCorrect ⟨idn, [a1, a2]⟩ = .ok true :=
    ProportionalLinearizeTask.doCorrect_proportional rfl ht1 hg1.1
  have hA1 := ProportionalLinearizeTask.runAmp_good mi a1 hg1
  have hra : ProportionalLinearizeTask.runAmps mi [a1, a2] =
      ({ image := applySquare (a1.linearityCoeffs.getD 0 0) a1.bbox mi.image,
         mask := setSuspect (a1.linearityCoeffs.getD 2 0) a1.bbox mi.image mi.mask,
         variance := mi.variance }, true,
       some "coeff 1 must be 0 for PROPORTIONAL non-linearity correction") := by
    simp only [ProportionalLinearizeTask.runAmps, hA1,
      ProportionalLinearizeTask.runAmp_coeff1_error hlen2 hc2, Bool.true_or]
  rw [ProportionalLinearizeTask.run_eq_of_true hDC]
  have hImg : (ProportionalLinearizeTask.runAmps mi [a1, a2]).1.image i =
      mi.image i * (1 + a1.linearityCoeffs.getD 0 0 * mi.image i) := by
    rw [hra]
    exact applySquare_mem _ _ _ hi
  refine ⟨?_, hImg, ?_⟩
  · show ((ProportionalLinearizeTask.runAmps mi [a1, a2]).2.2).isSome
    rw [hra]
    rfl
  · show (ProportionalLinearizeTask.runAmps mi [a1, a2]).1.image i ≠ mi.image i
    rw [hImg]
    intro heq
    rw [mul_add, mul_one] at heq
    have hz : mi.image i * (a1.linearityCoeffs.getD 0 0 * mi.image i) = 0 := by
      linarith
    rcases mul_eq_zero.mp hz with h | h
    · exact hv h
    · rcases mul_eq_zero.mp h with h' | h'
      · exact hg1.2.2.1 h'
      · exact hv h'

/-- Concrete instantiation of `run_error_not_atomic`: amplifier `ampA` is
corrected in place before the raise triggered by `ampBadCoeff1`. -/
theorem run_error_not_atomic_witness :
    ((ProportionalLinearizeTask.run ⟨⟨9, [ampA, ampBadCoeff1]⟩, miAB⟩).2).isSome ∧
    (ProportionalLinearizeTask.run
        ⟨⟨9, [ampA, ampBadCoeff1]⟩, miAB⟩).1.maskedImage.image 1 =
      miAB.image 1 * (1 + ampA.linearityCoeffs.getD 0 0 * miAB.image 1) ∧
    (ProportionalLinearizeTask.run
        ⟨⟨9, [ampA, ampBadCoeff1]⟩, miAB⟩).1.maskedImage.image 1 ≠
      miAB.image 1 :=
  run_error_not_atomic 9 ampA ampBadCoeff1 miAB 1 (by decide) (by decide)
    (by decide) (by decide) (by decide) (by decide)
